import Mathlib

/-!
Shallow embedding of the BDWare go-libp2p-kad-dht fork's configuration layer
(`dht_options.go`) and connection-lifecycle notification handlers (`notif.go`),
with theorems checking the natural-language specification against the code.
-/

namespace KadDHT

/-- DHT operating modes, mirroring the Go `ModeOpt` constants (iota order). -/
inductive ModeOpt where
  | modeAuto
  | modeClient
  | modeServer
  | modeAutoServer
deriving DecidableEq

/-- Record validators, mirroring the dynamic `record.Validator` interface.
`publicKey` models `record.PublicKeyValidator` (a field-free struct),
`ipns kb` models `ipns.Validator` with key book handle `kb`,
`namespaced m` models `record.NamespacedValidator` (a map from namespace to
validator, here an association list with distinct keys), `other` models any
other validator implementation, and `nilValidator` the zero interface value. -/
inductive Validator where
  | nilValidator
  | publicKey
  | ipns (keyBook : Nat)
  | namespaced (m : List (String × Validator))
  | other (id : Nat)

mutual

/-- Decidable equality for validators, written by hand because the type nests
through lists of pairs. -/
def Validator.decEq : (a b : Validator) → Decidable (a = b)
  | .nilValidator, .nilValidator => isTrue rfl
  | .publicKey, .publicKey => isTrue rfl
  | .ipns x, .ipns y =>
      match Nat.decEq x y with
      | isTrue h => isTrue (h ▸ rfl)
      | isFalse h => isFalse fun he => h (Validator.ipns.inj he)
  | .other x, .other y =>
      match Nat.decEq x y with
      | isTrue h => isTrue (h ▸ rfl)
      | isFalse h => isFalse fun he => h (Validator.other.inj he)
  | .namespaced m, .namespaced m' =>
      match Validator.decEqList m m' with
      | isTrue h => isTrue (h ▸ rfl)
      | isFalse h => isFalse fun he => h (Validator.namespaced.inj he)
  | .nilValidator, .publicKey => isFalse nofun
  | .nilValidator, .ipns _ => isFalse nofun
  | .nilValidator, .namespaced _ => isFalse nofun
  | .nilValidator, .other _ => isFalse nofun
  | .publicKey, .nilValidator => isFalse nofun
  | .publicKey, .ipns _ => isFalse nofun
  | .publicKey, .namespaced _ => isFalse nofun
  | .publicKey, .other _ => isFalse nofun
  | .ipns _, .nilValidator => isFalse nofun
  | .ipns _, .publicKey => isFalse nofun
  | .ipns _, .namespaced _ => isFalse nofun
  | .ipns _, .other _ => isFalse nofun
  | .namespaced _, .nilValidator => isFalse nofun
  | .namespaced _, .publicKey => isFalse nofun
  | .namespaced _, .ipns _ => isFalse nofun
  | .namespaced _, .other _ => isFalse nofun
  | .other _, .nilValidator => isFalse nofun
  | .other _, .publicKey => isFalse nofun
  | .other _, .ipns _ => isFalse nofun
  | .other _, .namespaced _ => isFalse nofun

/-- Decidable equality for namespaced validator association lists. -/
def Validator.decEqList :
    (a b : List (String × Validator)) → Decidable (a = b)
  | [], [] => isTrue rfl
  | [], _ :: _ => isFalse nofun
  | _ :: _, [] => isFalse nofun
  | (k, v) :: r, (k', v') :: r' =>
      match String.decEq k k', Validator.decEq v v', Validator.decEqList r r' with
      | isTrue h1, isTrue h2, isTrue h3 => isTrue (by rw [h1, h2, h3])
      | isFalse h1, _, _ =>
          isFalse fun he => by
            injection he with he1 he2
            exact h1 (congrArg Prod.fst he1)
      | _, isFalse h2, _ =>
          isFalse fun he => by
            injection he with he1 he2
            exact h2 (congrArg Prod.snd he1)
      | _, _, isFalse h3 =>
          isFalse fun he => by
            injection he with he1 he2
            exact h3 he2

end

instance : DecidableEq Validator := Validator.decEq

/-- Whether the dynamic type assertion `v.(record.NamespacedValidator)` succeeds. -/
def Validator.isNamespaced : Validator → Bool
  | .namespaced _ => true
  | _ => false

/-- Underlying association list of a namespaced validator (`[]` otherwise). -/
def Validator.nsEntries : Validator → List (String × Validator)
  | .namespaced m => m
  | _ => []

/-- Go map assignment `m[ns] = v`: replace the binding when the key is present,
otherwise add it. -/
def nsInsert (ns : String) (v : Validator) :
    List (String × Validator) → List (String × Validator)
  | [] => [(ns, v)]
  | (k, w) :: rest =>
      if k = ns then (k, v) :: rest else (k, w) :: nsInsert ns v rest

/-- Symbolic model of the float64 values occurring in the configuration code.
`lit num den` models a float literal with exact decimal value `num / den`,
kept in the form the source writes it (`1.3327` is `lit 13327 10000`, `4` is
`lit 4 1`); `addLog2 num den n` models `num / den + math.Log2(float64(n))`.
Distinct symbolic values built by this development denote distinct float64
values (the literals differ and log2 of distinct positive integers differ),
so equality of the model matches float64 equality here. -/
inductive FloatV where
  | lit (num den : Int)
  | addLog2 (num den : Int) (n : Nat)
deriving DecidableEq

/-- Query peer filter functions (`QueryFilterFunc`); the code only ever
installs `emptyQueryFilter` by default, other values are user supplied. -/
inductive QueryFilterFunc where
  | nilFilter
  | emptyQueryFilter
  | custom (id : Nat)
deriving DecidableEq

/-- Routing table peer filter functions (`RouteTableFilterFunc`). -/
inductive RouteTableFilterFunc where
  | nilFilter
  | emptyRTFilter
  | custom (id : Nat)
deriving DecidableEq

/-- Datastore handles (`ds.Batching`); the default is the mutex-wrapped
in-memory map datastore. -/
inductive Datastore where
  | nilDatastore
  | mapDatastore
  | custom (id : Nat)
deriving DecidableEq

/-- The nested `routingTable` struct of the Go `config`. Durations are in
nanoseconds, as Go's `time.Duration`. -/
structure RoutingTableConfig where
  refreshQueryTimeout : Int
  refreshInterval : Int
  autoRefresh : Bool
  latencyTolerance : Int
  peerFilter : RouteTableFilterFunc
  considerLatency : Bool
  avgBitsImprovedPerStep : FloatV
  avgRoundTripPerStep : FloatV
deriving DecidableEq

/-- The Go `config` struct of `dht_options.go`. -/
structure Config where
  datastore : Datastore
  validator : Validator
  validatorChanged : Bool
  mode : ModeOpt
  protocolPrefix : String
  bucketSize : Int
  concurrency : Int
  resiliency : Int
  maxRecordAge : Int
  enableProviders : Bool
  enableValues : Bool
  providersOptions : List Nat
  queryPeerFilter : QueryFilterFunc
  protectAllBuckets : Bool
  protectedBuckets : Int
  routingTable : RoutingTableConfig
  v1CompatibleMode : Bool
  bootstrapPeers : List Nat
deriving DecidableEq

/-- The Go zero value of `config`, to which `defaults` is applied. -/
def zeroConfig : Config where
  datastore := .nilDatastore
  validator := .nilValidator
  validatorChanged := false
  mode := .modeAuto
  protocolPrefix := ""
  bucketSize := 0
  concurrency := 0
  resiliency := 0
  maxRecordAge := 0
  enableProviders := false
  enableValues := false
  providersOptions := []
  queryPeerFilter := .nilFilter
  protectAllBuckets := false
  protectedBuckets := 0
  routingTable := {
    refreshQueryTimeout := 0
    refreshInterval := 0
    autoRefresh := false
    latencyTolerance := 0
    peerFilter := .nilFilter
    considerLatency := false
    avgBitsImprovedPerStep := .lit 0 1
    avgRoundTripPerStep := .lit 0 1 }
  v1CompatibleMode := false
  bootstrapPeers := []

/-- `DefaultPrefix`, the application specific prefix attached to all DHT
protocols by default. -/
def DefaultPrefix : String := "/ipfs"

/-- `defaultBucketSize = 20`. -/
def defaultBucketSize : Int := 20

/-- Modelled from the spec: `defaultProtectedBuckets` is declared outside the
given files; the `ProtectedBuckets` option documents a default of 1. -/
def defaultProtectedBuckets : Int := 1

/-- Nanoseconds in a `time.Minute`. -/
def timeMinute : Int := 60000000000

/-- Nanoseconds in a `time.Hour`. -/
def timeHour : Int := 3600000000000

/-- Field updates performed by the Go `defaults` option. -/
def defaultsF (o : Config) : Config :=
  { o with
    validator := .namespaced []
    datastore := .mapDatastore
    protocolPrefix := DefaultPrefix
    enableProviders := true
    enableValues := true
    queryPeerFilter := .emptyQueryFilter
    routingTable := {
      latencyTolerance := timeMinute
      refreshQueryTimeout := 1 * timeMinute
      refreshInterval := 10 * timeMinute
      autoRefresh := true
      peerFilter := .emptyRTFilter
      considerLatency := false
      avgBitsImprovedPerStep := .addLog2 13327 10000 defaultBucketSize.toNat
      avgRoundTripPerStep := .lit 4 1 }
    maxRecordAge := timeHour * 36
    bucketSize := defaultBucketSize
    concurrency := 10
    resiliency := 3
    protectAllBuckets := false
    protectedBuckets := defaultProtectedBuckets
    v1CompatibleMode := true }

/-- The Go `defaults` option (never fails). -/
def defaults (o : Config) : Except String Config :=
  Except.ok (defaultsF o)

/-- The fully defaulted configuration: `defaults` applied to the zero value. -/
def defaultConfig : Config := defaultsF zeroConfig

/-- Boolean success test on an `Except` result. -/
def isOkE {α : Type} (r : Except String α) : Bool :=
  match r with
  | .ok _ => true
  | .error _ => false

/-- `config.validate` of `dht_options.go`, translated branch for branch. -/
def validate (c : Config) : Except String Unit :=
  if c.protocolPrefix ≠ DefaultPrefix then
    Except.ok ()
  else if c.bucketSize ≠ defaultBucketSize then
    Except.error "protocol prefix /ipfs must use bucket size 20"
  else if c.enableProviders = false then
    Except.error "protocol prefix /ipfs must have providers enabled"
  else if c.enableValues = false then
    Except.error "protocol prefix /ipfs must have values enabled"
  else
    match c.validator with
    | .namespaced nsval =>
        if nsval.length ≠ 2 then
          Except.error "protocol prefix /ipfs must have exactly two namespaced validators - /pk and /ipns"
        else
          match nsval.lookup "pk" with
          | none => Except.error "protocol prefix /ipfs must support the /pk namespaced validator"
          | some pkVal =>
              match pkVal with
              | .publicKey =>
                  match nsval.lookup "ipns" with
                  | none => Except.error "protocol prefix /ipfs must support the /ipns namespaced validator"
                  | some ipnsVal =>
                      match ipnsVal with
                      | .ipns _ => Except.ok ()
                      | _ => Except.error "protocol prefix /ipfs must use ipns.Validator for the /ipns namespace"
              | _ => Except.error "protocol prefix /ipfs must use the record.PublicKeyValidator for the /pk namespace"
    | _ => Except.error "protocol prefix /ipfs must use a namespaced validator"

/-- First half of the fallback completion in `config.applyFallbacks`: add a
default `"pk"` entry when none is present. -/
def fillPk (nsval : List (String × Validator)) : List (String × Validator) :=
  if (nsval.lookup "pk").isSome then nsval
  else nsInsert "pk" .publicKey nsval

/-- Second half of the fallback completion: add a default `"ipns"` entry
(bound to the host's peerstore `h`) when none is present. -/
def fillIpns (h : Nat) (nsval : List (String × Validator)) :
    List (String × Validator) :=
  if (nsval.lookup "ipns").isSome then nsval
  else nsInsert "ipns" (.ipns h) nsval

/-- Completion of a namespaced validator map as `config.applyFallbacks` does
it: the `"pk"` fallback, then the `"ipns"` fallback. -/
def fillDefaultNs (h : Nat) (nsval : List (String × Validator)) :
    List (String × Validator) :=
  fillIpns h (fillPk nsval)

/-- `config.applyFallbacks` of `dht_options.go`; `h` is the host's peerstore
handle used for the default ipns validator's key book. -/
def applyFallbacks (c : Config) (h : Nat) : Except String Config :=
  if c.validatorChanged = false then
    match c.validator with
    | .namespaced nsval =>
        Except.ok { c with validator := .namespaced (fillDefaultNs h nsval) }
    | _ => Except.error "the default validator was changed without being marked as changed"
  else
    Except.ok c

/-- The recognized construction options of `dht_options.go`, one constructor
per exported `Option`-returning function. -/
inductive DHTOption where
  | routingTableLatencyTolerance (latency : Int)
  | routingTableRefreshQueryTimeout (timeout : Int)
  | routingTableRefreshPeriod (period : Int)
  | datastore (d : Datastore)
  | mode (m : ModeOpt)
  | validator (v : Validator)
  | namespacedValidator (ns : String) (v : Validator)
  | protocolPrefixOpt (p : String)
  | protocolExtension (ext : String)
  | bucketSize (k : Int)
  | concurrency (alpha : Int)
  | resiliency (beta : Int)
  | maxRecordAge (maxAge : Int)
  | disableAutoRefresh
  | disableProviders
  | disableValues
  | providersOptions (opts : List Nat)
  | queryFilter (f : QueryFilterFunc)
  | routingTableFilter (f : RouteTableFilterFunc)
  | enableProtectAllBuckets
  | protectedBuckets (maxCpl : Int)
  | enableConsiderLatency
  | avgBitsImprovedPerStep (x : FloatV)
  | avgRoundTripPerStep (x : FloatV)
  | v1CompatibleMode (enable : Bool)
  | bootstrapPeers (bootstrappers : List Nat)
deriving DecidableEq

/-- Whether the option is `NamespacedValidator` (the only fallible one). -/
def DHTOption.isNsVal : DHTOption → Bool
  | .namespacedValidator _ _ => true
  | _ => false

/-- Whether the option is `Validator` (which also flips `validatorChanged`). -/
def DHTOption.isValidatorOpt : DHTOption → Bool
  | .validator _ => true
  | _ => false

/-- Application of one construction option to a config, translated setter for
setter from `dht_options.go`. -/
def applyOption (opt : DHTOption) (c : Config) : Except String Config :=
  match opt with
  | .routingTableLatencyTolerance latency =>
      Except.ok { c with routingTable.latencyTolerance := latency }
  | .routingTableRefreshQueryTimeout timeout =>
      Except.ok { c with routingTable.refreshQueryTimeout := timeout }
  | .routingTableRefreshPeriod period =>
      Except.ok { c with routingTable.refreshInterval := period }
  | .datastore d => Except.ok { c with datastore := d }
  | .mode m => Except.ok { c with mode := m }
  | .validator v =>
      Except.ok { c with validator := v, validatorChanged := true }
  | .namespacedValidator ns v =>
      match c.validator with
      | .namespaced nsval =>
          Except.ok { c with validator := .namespaced (nsInsert ns v nsval) }
      | _ => Except.error "can only add namespaced validators to a NamespacedValidator"
  | .protocolPrefixOpt p => Except.ok { c with protocolPrefix := p }
  | .protocolExtension ext =>
      Except.ok { c with protocolPrefix := c.protocolPrefix ++ ext }
  | .bucketSize k => Except.ok { c with bucketSize := k }
  | .concurrency alpha => Except.ok { c with concurrency := alpha }
  | .resiliency beta => Except.ok { c with resiliency := beta }
  | .maxRecordAge maxAge => Except.ok { c with maxRecordAge := maxAge }
  | .disableAutoRefresh =>
      Except.ok { c with routingTable.autoRefresh := false }
  | .disableProviders => Except.ok { c with enableProviders := false }
  | .disableValues => Except.ok { c with enableValues := false }
  | .providersOptions opts => Except.ok { c with providersOptions := opts }
  | .queryFilter f => Except.ok { c with queryPeerFilter := f }
  | .routingTableFilter f => Except.ok { c with routingTable.peerFilter := f }
  | .enableProtectAllBuckets => Except.ok { c with protectAllBuckets := true }
  | .protectedBuckets maxCpl => Except.ok { c with protectedBuckets := maxCpl }
  | .enableConsiderLatency =>
      Except.ok { c with routingTable.considerLatency := true }
  | .avgBitsImprovedPerStep x =>
      Except.ok { c with routingTable.avgBitsImprovedPerStep := x }
  | .avgRoundTripPerStep x =>
      Except.ok { c with routingTable.avgRoundTripPerStep := x }
  | .v1CompatibleMode enable => Except.ok { c with v1CompatibleMode := enable }
  | .bootstrapPeers bootstrappers =>
      Except.ok { c with bootstrapPeers := bootstrappers }

/-- `config.apply` of `dht_options.go`: fold the options over the config,
short-circuiting on the first failure with its index. -/
def applyAux (i : Nat) (c : Config) : List DHTOption → Except String Config
  | [] => Except.ok c
  | opt :: rest =>
      match applyOption opt c with
      | .ok c' => applyAux (i + 1) c' rest
      | .error e =>
          Except.error ("dht option " ++ toString i ++ " failed: " ++ e)

/-- `config.apply` starting at option index 0. -/
def applyList (c : Config) (opts : List DHTOption) : Except String Config :=
  applyAux 0 c opts

/-- Result of applying an option, or the unchanged config when it errors. -/
def applyOrSame (opt : DHTOption) (c : Config) : Config :=
  match applyOption opt c with
  | .ok c' => c'
  | .error _ => c

/-- Number of leaf fields (counting the nested routing-table struct's fields
individually) on which two configs differ. -/
def diffCount (c c' : Config) : Nat :=
  (if c.datastore = c'.datastore then 0 else 1) +
  (if c.validator = c'.validator then 0 else 1) +
  (if c.validatorChanged = c'.validatorChanged then 0 else 1) +
  (if c.mode = c'.mode then 0 else 1) +
  (if c.protocolPrefix = c'.protocolPrefix then 0 else 1) +
  (if c.bucketSize = c'.bucketSize then 0 else 1) +
  (if c.concurrency = c'.concurrency then 0 else 1) +
  (if c.resiliency = c'.resiliency then 0 else 1) +
  (if c.maxRecordAge = c'.maxRecordAge then 0 else 1) +
  (if c.enableProviders = c'.enableProviders then 0 else 1) +
  (if c.enableValues = c'.enableValues then 0 else 1) +
  (if c.providersOptions = c'.providersOptions then 0 else 1) +
  (if c.queryPeerFilter = c'.queryPeerFilter then 0 else 1) +
  (if c.protectAllBuckets = c'.protectAllBuckets then 0 else 1) +
  (if c.protectedBuckets = c'.protectedBuckets then 0 else 1) +
  (if c.routingTable.refreshQueryTimeout = c'.routingTable.refreshQueryTimeout then 0 else 1) +
  (if c.routingTable.refreshInterval = c'.routingTable.refreshInterval then 0 else 1) +
  (if c.routingTable.autoRefresh = c'.routingTable.autoRefresh then 0 else 1) +
  (if c.routingTable.latencyTolerance = c'.routingTable.latencyTolerance then 0 else 1) +
  (if c.routingTable.peerFilter = c'.routingTable.peerFilter then 0 else 1) +
  (if c.routingTable.considerLatency = c'.routingTable.considerLatency then 0 else 1) +
  (if c.routingTable.avgBitsImprovedPerStep = c'.routingTable.avgBitsImprovedPerStep then 0 else 1) +
  (if c.routingTable.avgRoundTripPerStep = c'.routingTable.avgRoundTripPerStep then 0 else 1) +
  (if c.v1CompatibleMode = c'.v1CompatibleMode then 0 else 1) +
  (if c.bootstrapPeers = c'.bootstrapPeers then 0 else 1)

/-!
Embedding of the connection-lifecycle handlers of `notif.go`. Each handler
runs its body under the lifecycle lock `plk`, so one handler execution is
modelled as an atomic function from a state snapshot to a new state plus a
trace of the calls it makes on external collaborators.
-/

/-- A live connection as the handlers see it: the remote peer, whether
`v.NewStream()` succeeds, and the result of `mstream.SelectOneOf` on that
stream (`none` models a negotiation error). -/
structure Conn where
  remotePeer : Nat
  newStreamOk : Bool
  negotiated : Option String

/-- Observable calls a handler makes on its external collaborators. -/
inductive Effect where
  | rtUpdate (p : Nat)
  | rtRemove (p : Nat)
  | unprotect (p : Nat) (tag : String)
  | addProtocols (p : Nat) (protos : List String)
  | refreshAttempt (enqueued : Bool)
  | probeDispatched (p : Nat)
  | streamInvalidated (p : Nat)
deriving DecidableEq

/-- The DHT-side state a handler reads and writes. `supportsProtocols p`
models `peerstore.SupportsProtocols(p, protocolStrs...)`: `none` is an error
return, `some l` a successful return of the matched protocols `l`.
`connected p` models `host.Network().Connectedness(p) == network.Connected`
at the moment the lifecycle lock is held. `rtPeers` is the routing table as a
duplicate-free list, `triggerRtRefresh` the number of signals buffered in the
refresh channel, `strmap` the keys of the message-sender map, `protections`
the connection manager's (peer, tag) protections, and `networkPeers` the
result of `host.Network().Peers()`. -/
structure DhtState where
  closing : Bool
  autoRefresh : Bool
  supportsProtocols : Nat → Option (List String)
  connected : Nat → Bool
  rtPeers : List Nat
  triggerRtRefresh : Nat
  strmap : List Nat
  protections : List (Nat × String)
  networkPeers : List Nat

/-- Modelled from the spec: the refresh-request channel is created outside the
given files; the spec describes it as bounded with capacity 1. -/
def triggerChanCap : Nat := 1

/-- Non-blocking send on a bounded channel holding `count` items: the Go
`select` with a `default` branch. Returns the new occupancy and whether the
value was enqueued (it is dropped when the channel is full). -/
def chanTrySend (cap count : Nat) : Nat × Bool :=
  if count < cap then (count + 1, true) else (count, false)

/-- Whether `SupportsProtocols` reported cached support: `err == nil` and the
matched list is non-empty. -/
def cachedSupport (st : DhtState) (p : Nat) : Bool :=
  match st.supportsProtocols p with
  | some (_ :: _) => true
  | _ => false

/-- Modelled from the spec: `dht.Update(ctx, p)` is declared outside the given
files; the spec says the handler calls `RoutingTable.Update(peer)`, which
admits the peer into the routing-table set. -/
def rtUpdateS (st : DhtState) (p : Nat) : DhtState :=
  { st with rtPeers := if st.rtPeers.contains p then st.rtPeers else p :: st.rtPeers }

/-- The membership-update block shared by `Connected` and `testConnection`:
under the lifecycle lock, re-check connectedness, compute the refresh need
from the table size before the update, call `Update`, and attempt the
non-blocking refresh signal when needed and auto-refresh is on. `thresh` is
`minRTRefreshThreshold`, a constant declared outside the given files. -/
def updateUnderLock (thresh : Nat) (st : DhtState) (p : Nat) :
    DhtState × List Effect :=
  if st.connected p then
    let refresh := st.rtPeers.length ≤ thresh
    let st1 := rtUpdateS st p
    if refresh ∧ st1.autoRefresh then
      let sent := chanTrySend triggerChanCap st1.triggerRtRefresh
      ({ st1 with triggerRtRefresh := sent.1 },
       [Effect.rtUpdate p, Effect.refreshAttempt sent.2])
    else
      (st1, [Effect.rtUpdate p])
  else
    (st, [])

/-- `netNotifiee.Connected` of `notif.go`. The asynchronous probe dispatch
(`go nn.testConnection(v)`) is recorded as a `probeDispatched` effect; the
probe itself is the separate function `testConnection`. -/
def connectedHandler (thresh : Nat) (st : DhtState) (v : Conn) :
    DhtState × List Effect :=
  if st.closing then (st, [])
  else
    let p := v.remotePeer
    match st.supportsProtocols p with
    | some (_ :: _) => updateUnderLock thresh st p
    | _ => (st, [Effect.probeDispatched p])

/-- `netNotifiee.testConnection` of `notif.go`: open a stream on this exact
connection, negotiate a protocol, record it in the peerstore, then run the
same locked membership-update block as `Connected`. Stream-open and
negotiation failures return with no effect. -/
def testConnection (thresh : Nat) (st : DhtState) (v : Conn) :
    DhtState × List Effect :=
  let p := v.remotePeer
  if v.newStreamOk = false then (st, [])
  else
    match v.negotiated with
    | none => (st, [])
    | some selected =>
        let r := updateUnderLock thresh st p
        (r.1, Effect.addProtocols p [selected] :: r.2)

/-- The sparse-table recovery loop of `Disconnected`: for each peer the
network reports, re-admit it via `Update` when the peerstore already reports
protocol support (no probing). -/
def readmitLoop (st : DhtState) : List Nat → DhtState × List Effect
  | [] => (st, [])
  | q :: rest =>
      if cachedSupport st q then
        let r := readmitLoop (rtUpdateS st q) rest
        (r.1, Effect.rtUpdate q :: r.2)
      else
        readmitLoop st rest

/-- Removal of the `(p, tag)` protection, modelling `ConnManager().Unprotect`. -/
def unprotectS (ps : List (Nat × String)) (p : Nat) (tag : String) :
    List (Nat × String) :=
  ps.filter (fun e => decide (e ≠ (p, tag)))

/-- The removal block of `Disconnected`: drop the peer from the routing table
and unprotect its connection. -/
def removePeerS (st : DhtState) (p : Nat) : DhtState :=
  { st with
    rtPeers := st.rtPeers.erase p
    protections := unprotectS st.protections p "routingTable" }

/-- The sparse-table recovery step of `Disconnected`: when the table has
fallen below the minimum size, run the re-admission loop over the network's
current peers. -/
def recoverIfSparse (thresh : Nat) (st1 : DhtState) (peers : List Nat) :
    DhtState × List Effect :=
  if st1.rtPeers.length < thresh then readmitLoop st1 peers else (st1, [])

/-- The stream-map block of `Disconnected`: remove the peer's entry when one
is present and asynchronously invalidate it. -/
def strmapCleanup (st2 : DhtState) (p : Nat) : DhtState × List Effect :=
  if st2.strmap.contains p then
    ({ st2 with strmap := st2.strmap.erase p }, [Effect.streamInvalidated p])
  else (st2, [])

/-- The body of `Disconnected` past the shutdown and reconnect checks:
removal, sparse-table recovery, stream-map cleanup, in the source's order. -/
def disconnectedBody (thresh : Nat) (st : DhtState) (p : Nat) :
    DhtState × List Effect :=
  let st1 := removePeerS st p
  let r2 := recoverIfSparse thresh st1 st.networkPeers
  let r3 := strmapCleanup r2.1 p
  (r3.1,
   [Effect.rtRemove p, Effect.unprotect p "routingTable"] ++ r2.2 ++ r3.2)

/-- `netNotifiee.Disconnected` of `notif.go`. The asynchronous per-entry
stream invalidation goroutine is recorded as a `streamInvalidated` effect. -/
def disconnectedHandler (thresh : Nat) (st : DhtState) (v : Conn) :
    DhtState × List Effect :=
  if st.closing then (st, [])
  else if st.connected v.remotePeer then (st, [])
  else disconnectedBody thresh st v.remotePeer

/-!
Theorems settling the claims.
-/

/-- C1: `validate` succeeds for every config whose protocol prefix differs
from the reserved default `/ipfs`; for the reserved prefix it succeeds if and
only if the bucket size is the fixed default 20, provider and value storage
are both enabled, and the validator is a namespaced validator with exactly two
entries, `"pk"` bound to the public-key validator and `"ipns"` bound to an
ipns validator. -/
theorem validate_characterization (c : Config) :
    validate c = Except.ok () ↔
      (c.protocolPrefix ≠ DefaultPrefix ∨
        (c.bucketSize = defaultBucketSize ∧ c.enableProviders = true ∧
          c.enableValues = true ∧
          ∃ m, c.validator = Validator.namespaced m ∧ m.length = 2 ∧
            m.lookup "pk" = some Validator.publicKey ∧
            ∃ kb, m.lookup "ipns" = some (Validator.ipns kb))) := by
  by_cases hp : c.protocolPrefix = DefaultPrefix
  · by_cases hb : c.bucketSize = defaultBucketSize
    · by_cases hprov : c.enableProviders = true
      · by_cases hval : c.enableValues = true
        · cases hv : c.validator with
          | namespaced m =>
              by_cases hlen : m.length = 2
              · cases hpk : m.lookup "pk" with
                | none => simp [validate, hp, hb, hprov, hval, hv, hlen, hpk]
                | some pkv =>
                    cases pkv with
                    | publicKey =>
                        cases hip : m.lookup "ipns" with
                        | none =>
                            simp [validate, hp, hb, hprov, hval, hv, hlen, hpk, hip]
                        | some iv =>
                            cases iv <;>
                              simp [validate, hp, hb, hprov, hval, hv, hlen, hpk, hip]
                    | nilValidator =>
                        simp [validate, hp, hb, hprov, hval, hv, hlen, hpk]
                    | ipns kb =>
                        simp [validate, hp, hb, hprov, hval, hv, hlen, hpk]
                    | namespaced m' =>
                        simp [validate, hp, hb, hprov, hval, hv, hlen, hpk]
                    | other i =>
                        simp [validate, hp, hb, hprov, hval, hv, hlen, hpk]
              · simp [validate, hp, hb, hprov, hval, hv, hlen]
          | nilValidator => simp [validate, hp, hb, hprov, hval, hv]
          | publicKey => simp [validate, hp, hb, hprov, hval, hv]
          | ipns kb => simp [validate, hp, hb, hprov, hval, hv]
          | other i => simp [validate, hp, hb, hprov, hval, hv]
        · simp [validate, hp, hb, hprov, Bool.not_eq_true _ ▸ hval,
            eq_false_of_ne_true hval]
      · simp [validate, hp, hb, eq_false_of_ne_true hprov]
    · simp [validate, hp, hb]
  · simp [validate, hp]

theorem nsInsert_lookup_self (ns : String) (v : Validator)
    (m : List (String × Validator)) : (nsInsert ns v m).lookup ns = some v := by
  induction m with
  | nil => simp [nsInsert, List.lookup]
  | cons e rest ih =>
      obtain ⟨k, w⟩ := e
      by_cases hk : k = ns
      · subst hk
        simp [nsInsert, List.lookup]
      · have hbk : (ns == k) = false := beq_eq_false_iff_ne.mpr (Ne.symm hk)
        simp [nsInsert, hk, List.lookup, hbk, ih]

theorem nsInsert_lookup_ne (ns k : String) (v : Validator)
    (m : List (String × Validator)) (hne : k ≠ ns) :
    (nsInsert ns v m).lookup k = m.lookup k := by
  have hbne : (k == ns) = false := beq_eq_false_iff_ne.mpr hne
  induction m with
  | nil => simp [nsInsert, List.lookup, hbne]
  | cons e rest ih =>
      obtain ⟨k', w⟩ := e
      by_cases hk : k' = ns
      · subst hk
        simp [nsInsert, List.lookup, hbne]
      · simp [nsInsert, hk, List.lookup, ih]

theorem fillPk_lookup_ne (k : String) (m : List (String × Validator))
    (hne : k ≠ "pk") : (fillPk m).lookup k = m.lookup k := by
  unfold fillPk
  split
  · rfl
  · exact nsInsert_lookup_ne _ _ _ _ hne

theorem fillIpns_lookup_ne (h : Nat) (k : String)
    (m : List (String × Validator)) (hne : k ≠ "ipns") :
    (fillIpns h m).lookup k = m.lookup k := by
  unfold fillIpns
  split
  · rfl
  · exact nsInsert_lookup_ne _ _ _ _ hne

theorem fillDefaultNs_lookup (h : Nat) (m : List (String × Validator)) :
    ((m.lookup "pk").isSome → (fillDefaultNs h m).lookup "pk" = m.lookup "pk") ∧
    (m.lookup "pk" = none →
      (fillDefaultNs h m).lookup "pk" = some Validator.publicKey) ∧
    ((m.lookup "ipns").isSome →
      (fillDefaultNs h m).lookup "ipns" = m.lookup "ipns") ∧
    (m.lookup "ipns" = none →
      (fillDefaultNs h m).lookup "ipns" = some (Validator.ipns h)) := by
  have hpkip : ("pk" : String) ≠ "ipns" := by decide
  have hippk : ("ipns" : String) ≠ "pk" := by decide
  have hfp : (fillDefaultNs h m).lookup "pk" = (fillPk m).lookup "pk" :=
    fillIpns_lookup_ne h "pk" (fillPk m) hpkip
  have hfi : (fillPk m).lookup "ipns" = m.lookup "ipns" :=
    fillPk_lookup_ne "ipns" m hippk
  refine ⟨?_, ?_, ?_, ?_⟩
  · intro hsome
    rw [hfp]
    unfold fillPk
    rw [if_pos hsome]
  · intro hnone
    rw [hfp]
    unfold fillPk
    rw [hnone]
    simp only [Option.isSome_none, Bool.false_eq_true, if_false]
    exact nsInsert_lookup_self _ _ _
  · intro hsome
    show (fillIpns h (fillPk m)).lookup "ipns" = m.lookup "ipns"
    unfold fillIpns
    rw [hfi]
    rw [if_pos hsome]
    exact hfi
  · intro hnone
    show (fillIpns h (fillPk m)).lookup "ipns" = some (Validator.ipns h)
    unfold fillIpns
    rw [hfi, hnone]
    simp only [Option.isSome_none, Bool.false_eq_true, if_false]
    exact nsInsert_lookup_self _ _ _

/-- Config whose validator was explicitly replaced by a non-namespaced one. -/
def replacedCfg : Config :=
  { defaultConfig with validator := Validator.other 0, validatorChanged := true }

/-- C2 counterexample: for a config whose validator was explicitly replaced
(`validatorChanged = true`) by a validator that is not namespaced,
`applyFallbacks` succeeds and returns the config unchanged, instead of the
fatal construction error the claim asserts. -/
theorem applyFallbacks_replaced_not_namespaced_succeeds :
    applyFallbacks replacedCfg 0 = Except.ok replacedCfg ∧
    replacedCfg.validatorChanged = true ∧
    replacedCfg.validator.isNamespaced = false :=
  ⟨rfl, rfl, rfl⟩

/-- C2 (amended): `applyFallbacks` fills in the default `"pk"` and `"ipns"`
entries, and only for namespaces not already present, exactly when the
validator was never explicitly replaced; when it was never replaced but is
not a namespaced validator it returns a fatal construction error; when it was
explicitly replaced it returns the config unchanged and never fails. -/
theorem applyFallbacks_spec (c : Config) (h : Nat) :
    isOkE (applyFallbacks c h) = (c.validatorChanged || c.validator.isNamespaced) ∧
    (c.validatorChanged = true → applyFallbacks c h = Except.ok c) ∧
    (c.validatorChanged = false → c.validator.isNamespaced = true →
      applyFallbacks c h =
        Except.ok { c with validator :=
          Validator.namespaced (fillDefaultNs h c.validator.nsEntries) } ∧
      ((c.validator.nsEntries.lookup "pk").isSome →
        (fillDefaultNs h c.validator.nsEntries).lookup "pk" =
          c.validator.nsEntries.lookup "pk") ∧
      (c.validator.nsEntries.lookup "pk" = none →
        (fillDefaultNs h c.validator.nsEntries).lookup "pk" =
          some Validator.publicKey) ∧
      ((c.validator.nsEntries.lookup "ipns").isSome →
        (fillDefaultNs h c.validator.nsEntries).lookup "ipns" =
          c.validator.nsEntries.lookup "ipns") ∧
      (c.validator.nsEntries.lookup "ipns" = none →
        (fillDefaultNs h c.validator.nsEntries).lookup "ipns" =
          some (Validator.ipns h))) := by
  cases hch : c.validatorChanged with
  | true => simp [applyFallbacks, isOkE, hch]
  | false =>
      cases hv : c.validator with
      | namespaced m =>
          refine ⟨by simp [applyFallbacks, isOkE, hch, hv, Validator.isNamespaced],
            by simp, ?_⟩
          intro _ _
          refine ⟨by simp [applyFallbacks, hch, hv, Validator.nsEntries], ?_⟩
          simp only [Validator.nsEntries]
          exact fillDefaultNs_lookup h m
      | nilValidator =>
          simp [applyFallbacks, isOkE, hch, hv, Validator.isNamespaced]
      | publicKey =>
          simp [applyFallbacks, isOkE, hch, hv, Validator.isNamespaced]
      | ipns kb =>
          simp [applyFallbacks, isOkE, hch, hv, Validator.isNamespaced]
      | other i =>
          simp [applyFallbacks, isOkE, hch, hv, Validator.isNamespaced]

theorem ite_zero_one_le_one (p : Prop) [Decidable p] :
    (if p then (0 : Nat) else 1) ≤ 1 := by
  split <;> simp

theorem ite_one_zero_le_one (p : Prop) [Decidable p] :
    (if p then (1 : Nat) else 0) ≤ 1 := by
  split <;> simp

/-- C7 counterexample: applying the `Validator` option to the default config
succeeds but mutates two fields — `validator` and `validatorChanged` — not
exactly one. -/
theorem validator_option_mutates_two_fields :
    isOkE (applyOption (DHTOption.validator (Validator.other 0)) defaultConfig)
      = true ∧
    diffCount defaultConfig
      (applyOrSame (DHTOption.validator (Validator.other 0)) defaultConfig)
      = 2 := by
  constructor
  · rfl
  · decide

/-- C7 (amended): every recognized construction option mutates at most one
leaf field of the config and returns no error, with two exceptions: the
`Validator` option additionally sets the `validatorChanged` flag (so it
mutates up to two fields), and `NamespacedValidator` is the only option that
can fail, exactly when the current validator is not a namespaced validator. -/
theorem applyOption_frame (opt : DHTOption) (c : Config) :
    isOkE (applyOption opt c) = (!opt.isNsVal || c.validator.isNamespaced) ∧
    diffCount c (applyOrSame opt c) ≤ (if opt.isValidatorOpt then 2 else 1) := by
  cases opt with
  | validator v =>
      refine ⟨rfl, ?_⟩
      simp only [applyOrSame, applyOption, DHTOption.isValidatorOpt, diffCount]
      simp only [if_true]
      have h1 := ite_zero_one_le_one (c.validator = v)
      have h2 := ite_zero_one_le_one (c.validatorChanged = true)
      simp
      omega
  | namespacedValidator ns v =>
      cases hv : c.validator with
      | namespaced m =>
          refine ⟨by simp [applyOption, isOkE, hv, DHTOption.isNsVal,
            Validator.isNamespaced], ?_⟩
          simp only [applyOrSame, applyOption, hv, DHTOption.isValidatorOpt,
            diffCount]
          simp
          exact ite_zero_one_le_one _
      | nilValidator =>
          refine ⟨by simp [applyOption, isOkE, hv, DHTOption.isNsVal,
            Validator.isNamespaced], ?_⟩
          simp [applyOrSame, applyOption, hv, diffCount]
      | publicKey =>
          refine ⟨by simp [applyOption, isOkE, hv, DHTOption.isNsVal,
            Validator.isNamespaced], ?_⟩
          simp [applyOrSame, applyOption, hv, diffCount]
      | ipns kb =>
          refine ⟨by simp [applyOption, isOkE, hv, DHTOption.isNsVal,
            Validator.isNamespaced], ?_⟩
          simp [applyOrSame, applyOption, hv, diffCount]
      | other i =>
          refine ⟨by simp [applyOption, isOkE, hv, DHTOption.isNsVal,
            Validator.isNamespaced], ?_⟩
          simp [applyOrSame, applyOption, hv, diffCount]
  | routingTableLatencyTolerance latency =>
      refine ⟨rfl, ?_⟩
      simp [applyOrSame, applyOption, diffCount, DHTOption.isValidatorOpt]
      try exact ite_zero_one_le_one _
      try exact ite_one_zero_le_one _
  | routingTableRefreshQueryTimeout timeout =>
      refine ⟨rfl, ?_⟩
      simp [applyOrSame, applyOption, diffCount, DHTOption.isValidatorOpt]
      try exact ite_zero_one_le_one _
      try exact ite_one_zero_le_one _
  | routingTableRefreshPeriod period =>
      refine ⟨rfl, ?_⟩
      simp [applyOrSame, applyOption, diffCount, DHTOption.isValidatorOpt]
      try exact ite_zero_one_le_one _
      try exact ite_one_zero_le_one _
  | datastore d =>
      refine ⟨rfl, ?_⟩
      simp [applyOrSame, applyOption, diffCount, DHTOption.isValidatorOpt]
      try exact ite_zero_one_le_one _
      try exact ite_one_zero_le_one _
  | mode m =>
      refine ⟨rfl, ?_⟩
      simp [applyOrSame, applyOption, diffCount, DHTOption.isValidatorOpt]
      try exact ite_zero_one_le_one _
      try exact ite_one_zero_le_one _
  | protocolPrefixOpt p =>
      refine ⟨rfl, ?_⟩
      simp [applyOrSame, applyOption, diffCount, DHTOption.isValidatorOpt]
      try exact ite_zero_one_le_one _
      try exact ite_one_zero_le_one _
  | protocolExtension ext =>
      refine ⟨rfl, ?_⟩
      simp [applyOrSame, applyOption, diffCount, DHTOption.isValidatorOpt]
      try exact ite_zero_one_le_one _
      try exact ite_one_zero_le_one _
  | bucketSize k =>
      refine ⟨rfl, ?_⟩
      simp [applyOrSame, applyOption, diffCount, DHTOption.isValidatorOpt]
      try exact ite_zero_one_le_one _
      try exact ite_one_zero_le_one _
  | concurrency alpha =>
      refine ⟨rfl, ?_⟩
      simp [applyOrSame, applyOption, diffCount, DHTOption.isValidatorOpt]
      try exact ite_zero_one_le_one _
      try exact ite_one_zero_le_one _
  | resiliency beta =>
      refine ⟨rfl, ?_⟩
      simp [applyOrSame, applyOption, diffCount, DHTOption.isValidatorOpt]
      try exact ite_zero_one_le_one _
      try exact ite_one_zero_le_one _
  | maxRecordAge maxAge =>
      refine ⟨rfl, ?_⟩
      simp [applyOrSame, applyOption, diffCount, DHTOption.isValidatorOpt]
      try exact ite_zero_one_le_one _
      try exact ite_one_zero_le_one _
  | disableAutoRefresh =>
      refine ⟨rfl, ?_⟩
      simp [applyOrSame, applyOption, diffCount, DHTOption.isValidatorOpt]
      try exact ite_zero_one_le_one _
      try exact ite_one_zero_le_one _
  | disableProviders =>
      refine ⟨rfl, ?_⟩
      simp [applyOrSame, applyOption, diffCount, DHTOption.isValidatorOpt]
      try exact ite_zero_one_le_one _
      try exact ite_one_zero_le_one _
  | disableValues =>
      refine ⟨rfl, ?_⟩
      simp [applyOrSame, applyOption, diffCount, DHTOption.isValidatorOpt]
      try exact ite_zero_one_le_one _
      try exact ite_one_zero_le_one _
  | providersOptions opts =>
      refine ⟨rfl, ?_⟩
      simp [applyOrSame, applyOption, diffCount, DHTOption.isValidatorOpt]
      try exact ite_zero_one_le_one _
      try exact ite_one_zero_le_one _
  | queryFilter f =>
      refine ⟨rfl, ?_⟩
      simp [applyOrSame, applyOption, diffCount, DHTOption.isValidatorOpt]
      try exact ite_zero_one_le_one _
      try exact ite_one_zero_le_one _
  | routingTableFilter f =>
      refine ⟨rfl, ?_⟩
      simp [applyOrSame, applyOption, diffCount, DHTOption.isValidatorOpt]
      try exact ite_zero_one_le_one _
      try exact ite_one_zero_le_one _
  | enableProtectAllBuckets =>
      refine ⟨rfl, ?_⟩
      simp [applyOrSame, applyOption, diffCount, DHTOption.isValidatorOpt]
      try exact ite_zero_one_le_one _
      try exact ite_one_zero_le_one _
  | protectedBuckets maxCpl =>
      refine ⟨rfl, ?_⟩
      simp [applyOrSame, applyOption, diffCount, DHTOption.isValidatorOpt]
      try exact ite_zero_one_le_one _
      try exact ite_one_zero_le_one _
  | enableConsiderLatency =>
      refine ⟨rfl, ?_⟩
      simp [applyOrSame, applyOption, diffCount, DHTOption.isValidatorOpt]
      try exact ite_zero_one_le_one _
      try exact ite_one_zero_le_one _
  | avgBitsImprovedPerStep x =>
      refine ⟨rfl, ?_⟩
      simp [applyOrSame, applyOption, diffCount, DHTOption.isValidatorOpt]
      try exact ite_zero_one_le_one _
      try exact ite_one_zero_le_one _
  | avgRoundTripPerStep x =>
      refine ⟨rfl, ?_⟩
      simp [applyOrSame, applyOption, diffCount, DHTOption.isValidatorOpt]
      try exact ite_zero_one_le_one _
      try exact ite_one_zero_le_one _
  | v1CompatibleMode enable =>
      refine ⟨rfl, ?_⟩
      simp [applyOrSame, applyOption, diffCount, DHTOption.isValidatorOpt]
      try exact ite_zero_one_le_one _
      try exact ite_one_zero_le_one _
  | bootstrapPeers bootstrappers =>
      refine ⟨rfl, ?_⟩
      simp [applyOrSame, applyOption, diffCount, DHTOption.isValidatorOpt]
      try exact ite_zero_one_le_one _
      try exact ite_one_zero_le_one _

/-- Whether the option explicitly sets one of the latency-cost coefficients. -/
def DHTOption.setsCoefficient : DHTOption → Bool
  | .avgBitsImprovedPerStep _ => true
  | .avgRoundTripPerStep _ => true
  | _ => false

theorem applyOption_preserves_coefficients (opt : DHTOption) (c c' : Config)
    (hn : opt.setsCoefficient = false)
    (h : applyOption opt c = Except.ok c') :
    c'.routingTable.avgBitsImprovedPerStep =
      c.routingTable.avgBitsImprovedPerStep ∧
    c'.routingTable.avgRoundTripPerStep =
      c.routingTable.avgRoundTripPerStep := by
  cases opt with
  | namespacedValidator ns v =>
      simp only [applyOption] at h
      cases hv : c.validator <;> rw [hv] at h <;> simp at h <;> simp [← h]
  | avgBitsImprovedPerStep x => simp [DHTOption.setsCoefficient] at hn
  | avgRoundTripPerStep x => simp [DHTOption.setsCoefficient] at hn
  | _ =>
      simp only [applyOption, Except.ok.injEq] at h
      subst h
      exact ⟨rfl, rfl⟩

theorem applyAux_preserves_coefficients (opts : List DHTOption) :
    ∀ (i : Nat) (c c' : Config),
      opts.all (fun o => o.setsCoefficient = false) = true →
      applyAux i c opts = Except.ok c' →
      c'.routingTable.avgBitsImprovedPerStep =
        c.routingTable.avgBitsImprovedPerStep ∧
      c'.routingTable.avgRoundTripPerStep =
        c.routingTable.avgRoundTripPerStep := by
  induction opts with
  | nil =>
      intro i c c' _ h
      cases h
      exact ⟨rfl, rfl⟩
  | cons o rest ih =>
      intro i c c' hall h
      simp only [List.all_cons, Bool.and_eq_true, decide_eq_true_eq] at hall
      unfold applyAux at h
      cases ho : applyOption o c with
      | ok c1 =>
          rw [ho] at h
          have h1 := applyOption_preserves_coefficients o c c1
            (by simpa using hall.1) ho
          have h2 := ih (i + 1) c1 c' (by simpa using hall.2) h
          exact ⟨h2.1.trans h1.1, h2.2.trans h1.2⟩
      | error e =>
          rw [ho] at h
          cases h

/-- C9 counterexample: a config built with defaults and an explicit bucket
size of 2 (and no coefficient option) keeps `avgBitsImprovedPerStep` at
`1.3327 + log2(20)` — computed from the fixed `defaultBucketSize` — which is
not `1.3327 + log2(2)`, so the default does not track the configured `k`. -/
theorem avgBits_not_from_configured_bucket_size :
    applyList defaultConfig [DHTOption.bucketSize 2] =
      Except.ok { defaultConfig with bucketSize := 2 } ∧
    ({ defaultConfig with bucketSize := 2 } : Config).bucketSize = 2 ∧
    ({ defaultConfig with bucketSize := 2 } :
      Config).routingTable.avgBitsImprovedPerStep =
        FloatV.addLog2 13327 10000 20 ∧
    ({ defaultConfig with bucketSize := 2 } :
      Config).routingTable.avgBitsImprovedPerStep ≠
        FloatV.addLog2 13327 10000 2 :=
  ⟨rfl, rfl, rfl, by decide⟩

/-- C9 (amended): in a config built from the defaults by any option list that
sets no coefficient explicitly, `avgRoundTripPerStep` is 4 and
`avgBitsImprovedPerStep` is `1.3327 + log2(defaultBucketSize)` — the fixed
default bucket size 20, regardless of the configured bucket size. -/
theorem default_coefficients (opts : List DHTOption) (c : Config)
    (hn : opts.all (fun o => o.setsCoefficient = false) = true)
    (h : applyList defaultConfig opts = Except.ok c) :
    c.routingTable.avgBitsImprovedPerStep =
      FloatV.addLog2 13327 10000 defaultBucketSize.toNat ∧
    c.routingTable.avgRoundTripPerStep = FloatV.lit 4 1 := by
  have := applyAux_preserves_coefficients opts 0 defaultConfig c hn h
  exact ⟨this.1, this.2⟩

/-- C9 witness: the amended default-coefficient theorem applied to the
concrete option list that sets bucket size 2. -/
theorem default_coefficients_witness :
    ({ defaultConfig with bucketSize := 2 } :
      Config).routingTable.avgBitsImprovedPerStep =
        FloatV.addLog2 13327 10000 defaultBucketSize.toNat ∧
    ({ defaultConfig with bucketSize := 2 } :
      Config).routingTable.avgRoundTripPerStep = FloatV.lit 4 1 :=
  default_coefficients [DHTOption.bucketSize 2]
    { defaultConfig with bucketSize := 2 } (by decide) rfl

/-- C10: `ProtocolPrefix` replaces the protocol prefix while
`ProtocolExtension` appends to it, so the two do not commute: extension then
prefix yields the bare prefix (the extension is silently discarded), prefix
then extension yields their concatenation, and two extensions concatenate in
order. -/
theorem protocol_prefix_extension_order (c : Config) (p e e1 e2 : String) :
    applyList c [DHTOption.protocolExtension e, DHTOption.protocolPrefixOpt p] =
      Except.ok { c with protocolPrefix := p } ∧
    applyList c [DHTOption.protocolPrefixOpt p, DHTOption.protocolExtension e] =
      Except.ok { c with protocolPrefix := p ++ e } ∧
    applyList c [DHTOption.protocolExtension e1, DHTOption.protocolExtension e2] =
      Except.ok { c with protocolPrefix := c.protocolPrefix ++ e1 ++ e2 } :=
  ⟨rfl, rfl, rfl⟩

/-- C3: on a `Connected` event for a peer with cached protocol support that
is still connected under the lifecycle lock, `Update` is called; a refresh
signal is attempted exactly when the table size before the update was at most
the minimum refresh threshold and auto-refresh is enabled; and when moreover
the refresh channel is empty the signal is actually enqueued. -/
theorem connected_cached_support (thresh : Nat) (st : DhtState) (v : Conn)
    (pr : String) (prs : List String)
    (hclose : st.closing = false)
    (hsup : st.supportsProtocols v.remotePeer = some (pr :: prs))
    (hconn : st.connected v.remotePeer = true) :
    Effect.rtUpdate v.remotePeer ∈ (connectedHandler thresh st v).2 ∧
    ((Effect.refreshAttempt true ∈ (connectedHandler thresh st v).2 ∨
      Effect.refreshAttempt false ∈ (connectedHandler thresh st v).2) ↔
        (st.rtPeers.length ≤ thresh ∧ st.autoRefresh = true)) ∧
    (st.rtPeers.length ≤ thresh → st.autoRefresh = true →
      st.triggerRtRefresh = 0 →
      Effect.refreshAttempt true ∈ (connectedHandler thresh st v).2 ∧
      (connectedHandler thresh st v).1.triggerRtRefresh = 1) := by
  have hH : connectedHandler thresh st v = updateUnderLock thresh st v.remotePeer := by
    simp [connectedHandler, hclose, hsup]
  rw [hH]
  by_cases hra : st.rtPeers.length ≤ thresh ∧ st.autoRefresh = true
  · have hU : updateUnderLock thresh st v.remotePeer =
        ({ rtUpdateS st v.remotePeer with
            triggerRtRefresh :=
              (chanTrySend triggerChanCap st.triggerRtRefresh).1 },
         [Effect.rtUpdate v.remotePeer,
          Effect.refreshAttempt
            (chanTrySend triggerChanCap st.triggerRtRefresh).2]) := by
      simp only [updateUnderLock, rtUpdateS]
      rw [if_pos hconn, if_pos ⟨hra.1, hra.2⟩]
    rw [hU]
    refine ⟨by simp, ?_, ?_⟩
    · constructor
      · intro _
        exact hra
      · intro _
        cases hb : (chanTrySend triggerChanCap st.triggerRtRefresh).2
        · right
          simp [hb]
        · left
          simp [hb]
    · intro _ _ h0
      rw [h0]
      exact ⟨by simp [chanTrySend, triggerChanCap],
        by simp [chanTrySend, triggerChanCap]⟩
  · have hU : updateUnderLock thresh st v.remotePeer =
        (rtUpdateS st v.remotePeer, [Effect.rtUpdate v.remotePeer]) := by
      simp only [updateUnderLock, rtUpdateS]
      rw [if_pos hconn, if_neg]
      exact fun hand => hra ⟨hand.1, hand.2⟩
    rw [hU]
    refine ⟨by simp, ?_, ?_⟩
    · simp only [List.mem_singleton]
      constructor
      · intro hmem
        rcases hmem with hmem | hmem <;> cases hmem
      · intro hand
        exact absurd hand hra
    · intro h1 h2 _
      exact absurd ⟨h1, h2⟩ hra

/-- Concrete state for the C3 witness: 19 table entries, every peer cached as
supporting the DHT protocol and connected, auto-refresh on, channel empty. -/
def cachedSt : DhtState where
  closing := false
  autoRefresh := true
  supportsProtocols := fun _ => some ["/ipfs/kad/1.0.0"]
  connected := fun _ => true
  rtPeers := [1, 2, 3, 4, 5, 6, 7, 8, 9, 10, 11, 12, 13, 14, 15, 16, 17, 18, 19]
  triggerRtRefresh := 0
  strmap := []
  protections := []
  networkPeers := []

/-- Connection used by the C3 witness. -/
def cachedConn : Conn :=
  { remotePeer := 0, newStreamOk := true, negotiated := none }

/-- C3 witness: with table size 19 and threshold 20, `Update` is called and a
refresh signal is enqueued. -/
theorem connected_cached_support_witness :
    Effect.rtUpdate cachedConn.remotePeer ∈ (connectedHandler 20 cachedSt cachedConn).2 ∧
    ((Effect.refreshAttempt true ∈ (connectedHandler 20 cachedSt cachedConn).2 ∨
      Effect.refreshAttempt false ∈ (connectedHandler 20 cachedSt cachedConn).2) ↔
        (cachedSt.rtPeers.length ≤ 20 ∧ cachedSt.autoRefresh = true)) ∧
    (cachedSt.rtPeers.length ≤ 20 → cachedSt.autoRefresh = true →
      cachedSt.triggerRtRefresh = 0 →
      Effect.refreshAttempt true ∈ (connectedHandler 20 cachedSt cachedConn).2 ∧
      (connectedHandler 20 cachedSt cachedConn).1.triggerRtRefresh = 1) :=
  connected_cached_support 20 cachedSt cachedConn "/ipfs/kad/1.0.0" [] rfl rfl rfl

/-- C4: a `Disconnected` event for a peer that is connected again by the time
the lifecycle lock is held is a complete no-op: the state is unchanged and no
collaborator is called. -/
theorem disconnected_stale_noop (thresh : Nat) (st : DhtState) (v : Conn)
    (hclose : st.closing = false)
    (hconn : st.connected v.remotePeer = true) :
    disconnectedHandler thresh st v = (st, []) := by
  simp [disconnectedHandler, hclose, hconn]

/-- Concrete state for the C4 witness: peer 5 is in the routing table and the
stream map but has reconnected. -/
def staleSt : DhtState where
  closing := false
  autoRefresh := true
  supportsProtocols := fun _ => none
  connected := fun _ => true
  rtPeers := [5]
  triggerRtRefresh := 0
  strmap := [5]
  protections := [(5, "routingTable")]
  networkPeers := [5]

/-- C4 witness: the stale-disconnect no-op at a concrete reconnected peer. -/
theorem disconnected_stale_noop_witness :
    disconnectedHandler 20 staleSt
      { remotePeer := 5, newStreamOk := true, negotiated := none } =
      (staleSt, []) :=
  disconnected_stale_noop 20 staleSt
    { remotePeer := 5, newStreamOk := true, negotiated := none } rfl rfl

/-- Repeated refresh-signal attempts with no consumer draining the channel:
iterate the non-blocking send `n` times from occupancy `buf`. -/
def attemptN : Nat → Nat → Nat
  | 0, buf => buf
  | n + 1, buf => attemptN n (chanTrySend triggerChanCap buf).1

/-- C5: any number of refresh-signal attempts while no consumer drains the
capacity-1 channel leaves at most one signal buffered, and an attempt made
while a signal is already pending returns immediately, dropping the signal. -/
theorem refresh_coalescing (n buf : Nat) (hbuf : buf ≤ 1) :
    attemptN n buf ≤ 1 ∧ chanTrySend triggerChanCap 1 = (1, false) := by
  refine ⟨?_, rfl⟩
  induction n generalizing buf with
  | zero => exact hbuf
  | succ k ih =>
      unfold attemptN
      apply ih
      simp only [chanTrySend, triggerChanCap]
      split <;> omega

/-- C5 witness: five rapid attempts starting from an empty channel buffer at
most one signal. -/
theorem refresh_coalescing_witness :
    attemptN 5 0 ≤ 1 ∧ chanTrySend triggerChanCap 1 = (1, false) :=
  refresh_coalescing 5 0 (by decide)

/-- C6: when opening the probe stream fails, or protocol negotiation fails,
`testConnection` returns with the state unchanged and no collaborator call:
no `Update`, no peerstore write, no error or panic reaches the caller. -/
theorem testConnection_failure_noop (thresh : Nat) (st : DhtState) (v : Conn)
    (h : v.newStreamOk = false ∨ v.negotiated = none) :
    testConnection thresh st v = (st, []) := by
  rcases h with h | h
  · simp [testConnection, h]
  · cases hs : v.newStreamOk
    · simp [testConnection, hs]
    · simp [testConnection, hs, h]

/-- Concrete state for the C6 witness: no peer has a cached protocol record. -/
def probeSt : DhtState where
  closing := false
  autoRefresh := true
  supportsProtocols := fun _ => none
  connected := fun _ => true
  rtPeers := []
  triggerRtRefresh := 0
  strmap := []
  protections := []
  networkPeers := []

/-- C6 witness: a probe whose stream open fails leaves the state unchanged
and produces no effect. -/
theorem testConnection_failure_noop_witness :
    testConnection 20 probeSt
      { remotePeer := 3, newStreamOk := false, negotiated := none } =
      (probeSt, []) :=
  testConnection_failure_noop 20 probeSt
    { remotePeer := 3, newStreamOk := false, negotiated := none } (Or.inl rfl)

theorem readmitLoop_triggerRtRefresh (l : List Nat) :
    ∀ st : DhtState, (readmitLoop st l).1.triggerRtRefresh = st.triggerRtRefresh := by
  induction l with
  | nil => intro st; rfl
  | cons q rest ih =>
      intro st
      unfold readmitLoop
      by_cases h : cachedSupport st q = true
      · rw [if_pos h]
        exact ih (rtUpdateS st q)
      · rw [if_neg h]
        exact ih st

theorem readmitLoop_no_refreshAttempt (l : List Nat) (b : Bool) :
    ∀ st : DhtState, Effect.refreshAttempt b ∉ (readmitLoop st l).2 := by
  induction l with
  | nil => intro st hmem; cases hmem
  | cons q rest ih =>
      intro st
      unfold readmitLoop
      by_cases h : cachedSupport st q = true
      · rw [if_pos h]
        intro hmem
        rcases List.mem_cons.mp hmem with hmem | hmem
        · cases hmem
        · exact ih (rtUpdateS st q) hmem
      · rw [if_neg h]
        exact ih st

theorem readmitLoop_mem_update (l : List Nat) :
    ∀ (st : DhtState) (q : Nat), q ∈ l → cachedSupport st q = true →
      Effect.rtUpdate q ∈ (readmitLoop st l).2 := by
  induction l with
  | nil => intro st q hq; cases hq
  | cons a rest ih =>
      intro st q hq hsup
      unfold readmitLoop
      rcases List.mem_cons.mp hq with hq | hq
      · subst hq
        rw [if_pos hsup]
        exact List.mem_cons_self _ _
      · by_cases ha : cachedSupport st a = true
        · rw [if_pos ha]
          exact List.mem_cons_of_mem _ (ih (rtUpdateS st a) q hq hsup)
        · rw [if_neg ha]
          exact ih st q hq hsup

theorem recoverIfSparse_trigger (thresh : Nat) (st1 : DhtState)
    (peers : List Nat) :
    (recoverIfSparse thresh st1 peers).1.triggerRtRefresh =
      st1.triggerRtRefresh := by
  unfold recoverIfSparse
  split
  · exact readmitLoop_triggerRtRefresh peers st1
  · rfl

theorem recoverIfSparse_no_refreshAttempt (thresh : Nat) (st1 : DhtState)
    (peers : List Nat) (b : Bool) :
    Effect.refreshAttempt b ∉ (recoverIfSparse thresh st1 peers).2 := by
  unfold recoverIfSparse
  split
  · exact readmitLoop_no_refreshAttempt peers b st1
  · intro hmem
    cases hmem

theorem strmapCleanup_trigger (st2 : DhtState) (p : Nat) :
    (strmapCleanup st2 p).1.triggerRtRefresh = st2.triggerRtRefresh := by
  unfold strmapCleanup
  split <;> rfl

theorem strmapCleanup_no_refreshAttempt (st2 : DhtState) (p : Nat) (b : Bool) :
    Effect.refreshAttempt b ∉ (strmapCleanup st2 p).2 := by
  unfold strmapCleanup
  split <;> intro hmem <;> simp at hmem

/-- C8 (amended): after the removal performed by the `Disconnected` handler
no refresh signal is attempted — the refresh channel occupancy is unchanged —
and instead, when the routing table has fallen below the minimum size, every
peer the network reports whose protocol support is already cached is
re-admitted via `Update`. -/
theorem disconnected_membership_change (thresh : Nat) (st : DhtState) (v : Conn)
    (hclose : st.closing = false)
    (hconn : st.connected v.remotePeer = false) :
    (disconnectedHandler thresh st v).1.triggerRtRefresh = st.triggerRtRefresh ∧
    Effect.refreshAttempt true ∉ (disconnectedHandler thresh st v).2 ∧
    Effect.refreshAttempt false ∉ (disconnectedHandler thresh st v).2 ∧
    ((st.rtPeers.erase v.remotePeer).length < thresh →
      ∀ q ∈ st.networkPeers, cachedSupport st q = true →
        Effect.rtUpdate q ∈ (disconnectedHandler thresh st v).2) := by
  have hH : disconnectedHandler thresh st v =
      disconnectedBody thresh st v.remotePeer := by
    simp [disconnectedHandler, hclose, hconn]
  have hfst : (disconnectedBody thresh st v.remotePeer).1 =
      (strmapCleanup
        (recoverIfSparse thresh (removePeerS st v.remotePeer)
          st.networkPeers).1 v.remotePeer).1 := rfl
  have hsnd : (disconnectedBody thresh st v.remotePeer).2 =
      [Effect.rtRemove v.remotePeer,
       Effect.unprotect v.remotePeer "routingTable"] ++
        (recoverIfSparse thresh (removePeerS st v.remotePeer)
          st.networkPeers).2 ++
        (strmapCleanup
          (recoverIfSparse thresh (removePeerS st v.remotePeer)
            st.networkPeers).1 v.remotePeer).2 := rfl
  rw [hH, hfst, hsnd]
  refine ⟨?_, ?_, ?_, ?_⟩
  · rw [strmapCleanup_trigger, recoverIfSparse_trigger]
    rfl
  · intro hmem
    rcases List.mem_append.mp hmem with hmem | hmem
    · rcases List.mem_append.mp hmem with hmem | hmem
      · simp at hmem
      · exact recoverIfSparse_no_refreshAttempt _ _ _ true hmem
    · exact strmapCleanup_no_refreshAttempt _ _ true hmem
  · intro hmem
    rcases List.mem_append.mp hmem with hmem | hmem
    · rcases List.mem_append.mp hmem with hmem | hmem
      · simp at hmem
      · exact recoverIfSparse_no_refreshAttempt _ _ _ false hmem
    · exact strmapCleanup_no_refreshAttempt _ _ false hmem
  · intro hlt q hq hsup
    apply List.mem_append_left
    apply List.mem_append_right
    have hlt' : (removePeerS st v.remotePeer).rtPeers.length < thresh := hlt
    unfold recoverIfSparse
    rw [if_pos hlt']
    exact readmitLoop_mem_update st.networkPeers _ q hq hsup

/-- Concrete state for C8: peer 5 disconnected and in the table; peers 7 and
8 are connected with cached support, 9 without; auto-refresh on, channel
empty. -/
def sparseSt : DhtState where
  closing := false
  autoRefresh := true
  supportsProtocols := fun q =>
    if q = 7 ∨ q = 8 then some ["/ipfs/kad/1.0.0"] else none
  connected := fun q => q != 5
  rtPeers := [5]
  triggerRtRefresh := 0
  strmap := [5]
  protections := [(5, "routingTable")]
  networkPeers := [7, 8, 9]

/-- Connection used by the C8 theorems. -/
def sparseConn : Conn :=
  { remotePeer := 5, newStreamOk := true, negotiated := none }

/-- C8 counterexample: a disconnect that drops the table below the minimum
size (with auto-refresh enabled and the refresh channel empty) re-admits the
supported peers but never attempts a refresh signal: the channel stays
empty. -/
theorem disconnected_no_refresh_signal :
    sparseSt.autoRefresh = true ∧
    sparseSt.triggerRtRefresh = 0 ∧
    (disconnectedHandler 20 sparseSt sparseConn).1.rtPeers.length < 20 ∧
    (disconnectedHandler 20 sparseSt sparseConn).1.triggerRtRefresh = 0 ∧
    Effect.refreshAttempt true ∉ (disconnectedHandler 20 sparseSt sparseConn).2 ∧
    Effect.refreshAttempt false ∉ (disconnectedHandler 20 sparseSt sparseConn).2 ∧
    Effect.rtUpdate 7 ∈ (disconnectedHandler 20 sparseSt sparseConn).2 ∧
    Effect.rtUpdate 8 ∈ (disconnectedHandler 20 sparseSt sparseConn).2 ∧
    Effect.rtUpdate 9 ∉ (disconnectedHandler 20 sparseSt sparseConn).2 := by
  decide

/-- C8 witness: the amended theorem applied to the concrete sparse state. -/
theorem disconnected_membership_change_witness :
    (disconnectedHandler 20 sparseSt sparseConn).1.triggerRtRefresh =
      sparseSt.triggerRtRefresh ∧
    Effect.refreshAttempt true ∉ (disconnectedHandler 20 sparseSt sparseConn).2 ∧
    Effect.refreshAttempt false ∉ (disconnectedHandler 20 sparseSt sparseConn).2 ∧
    ((sparseSt.rtPeers.erase sparseConn.remotePeer).length < 20 →
      ∀ q ∈ sparseSt.networkPeers, cachedSupport sparseSt q = true →
        Effect.rtUpdate q ∈ (disconnectedHandler 20 sparseSt sparseConn).2) :=
  disconnected_membership_change 20 sparseSt sparseConn rfl rfl

end KadDHT
